import Mathlib

/-!
Verification development for the Video-Downloader repository.

The Python sources `downloader/downloader.py` and `downloader/views.py` are
shallowly embedded below.  Pure data processing (URL validation, format
cataloguing, sort keys) becomes ordinary Lean functions; the side-effecting
orchestration (`download_video`, the AJAX `index` view, the background
`download_task`) becomes pure functions from an explicit environment
(engine outcome, progress events, filesystem contents) to a result together
with a trace of cache writes and filesystem effects.  Python exceptions are
modelled with `Except String`.  Machine-level caveats: Python `str.isdigit`
and `str.isalpha` also accept some non-ASCII characters (the embedding uses
ASCII character classes), and the progress percentage is computed with
IEEE-754 binary64 floats, which the embedding models exactly (correctly
rounded division, correctly rounded multiplication by 100, truncation).
-/

namespace VideoDL

/-! ### Python string helpers -/

/-- `s.rsplit('.', 1)[0]`: everything before the last dot, or `s` itself when
`s` has no dot (as used at `downloader.py:256` and `263`). -/
def rsplitBase (s : String) : String :=
  if s.toList.contains '.' then
    String.mk (((s.toList.reverse.dropWhile (· ≠ '.')).drop 1).reverse)
  else s

/-- Value of a list of decimal digit characters, digit-join then `int`. -/
def digitsVal (ds : List Char) : Nat :=
  ds.foldl (fun n c => n * 10 + (c.toNat - '0'.toNat)) 0

/-- Substring test on strings (used only for the spec-side audio-token
predicate of claim C4). -/
def hasSubstr (hay pat : String) : Bool :=
  (List.range (hay.toList.length + 1)).any
    (fun i => (hay.toList.drop i).take pat.toList.length == pat.toList)

/-- Prefix test on character lists. -/
def listPre : List Char → List Char → Bool
  | [], _ => true
  | _ :: _, [] => false
  | a :: as, b :: bs => a == b && listPre as bs

/-- Python `s.startswith(pre)`. -/
def pyStartswith (s pre : String) : Bool := listPre pre.toList s.toList

/-- Worker for `pyReplace`; the fuel argument (the input length) only makes
the recursion structural and never cuts the scan short. -/
def replaceGo (pat rep : List Char) : Nat → List Char → List Char
  | _, [] => []
  | 0, l => l
  | Nat.succ fuel, c :: cs =>
    if listPre pat (c :: cs) && !pat.isEmpty then
      rep ++ replaceGo pat rep fuel (List.drop (pat.length - 1) cs)
    else c :: replaceGo pat rep fuel cs

/-- Python `s.replace(pat, rep)`: every non-overlapping occurrence, scanned
left to right, resuming after each replacement (all uses in this code have a
nonempty pattern). -/
def pyReplace (s pat rep : String) : String :=
  String.mk (replaceGo pat.toList rep.toList s.toList.length s.toList)

/-! ### `is_valid_url` (downloader.py lines 11-17)

`urllib.parse.urlparse` is embedded just far enough to produce the `scheme`
and `netloc` components consulted by the code: a scheme is split off when the
text before the first `:` is nonempty, starts with an ASCII letter and
consists of letters, digits, `+`, `-`, `.` (then lowercased); the netloc is
the text between a leading `//` of the remainder and the next `/`, `?` or
`#`. -/

/-- Characters allowed in a URL scheme by `urllib.parse`. -/
def isSchemeChar (c : Char) : Bool :=
  c.isAlphanum || c == '+' || c == '-' || c == '.'

/-- The `scheme` component of `urlparse`, plus the rest after the colon. -/
def schemeSplit (cs : List Char) : Option (List Char × List Char) :=
  match cs.span (· ≠ ':') with
  | (pre, ':' :: rest) =>
    match pre with
    | [] => none
    | c :: _ =>
      if c.isAlpha && pre.all isSchemeChar then
        some (pre.map Char.toLower, rest)
      else none
  | _ => none

/-- The `netloc` component of `urlparse`, given the text after the scheme. -/
def netlocOf (rest : List Char) : List Char :=
  match rest with
  | '/' :: '/' :: r => r.takeWhile (fun c => c ≠ '/' && c ≠ '?' && c ≠ '#')
  | _ => []

/-- `is_valid_url` (downloader.py:11): scheme in `{http, https}` and a
nonempty host. -/
def is_valid_url (url : String) : Bool :=
  match schemeSplit url.toList with
  | some (scheme, rest) =>
    (String.mk scheme == "http" || String.mk scheme == "https")
      && !(netlocOf rest).isEmpty
  | none => false

/-! ### Format catalog (`get_available_formats`, downloader.py lines 19-123) -/

/-- One raw entry of `info['formats']` as a Python dict: every key the code
reads with `.get` is an optional field (`none` models both an absent key and
an explicit `None`; yt-dlp uses the string `"none"`, not `None`, for an
absent codec, and the code compares against that string). -/
structure RawFormat where
  format_id : Option String
  ext : Option String
  resolution : Option String
  filesize : Option Nat
  vcodec : Option String
  acodec : Option String
deriving DecidableEq, Repr

/-- The `format_info` dict built per entry (downloader.py:66-94).  The
display-only fields `filesize_str`, `label`, `format_note`, `fps` are float-
and emoji-formatting and are read by no claim; they are omitted. -/
structure FormatInfo where
  format_id : String
  ext : String
  resolution : Option String
  filesize : Option Nat
  vcodec : String
  acodec : String
  type : String
deriving DecidableEq, Repr

/-- `if f.get('filesize') and f.get('filesize') < 1024: continue`
(downloader.py:63): a known truthy (nonzero) size below 1KB is dropped. -/
def skipSmall (f : RawFormat) : Bool :=
  match f.filesize with
  | some n => decide (n ≠ 0 ∧ n < 1024)
  | none => false

/-- Whether `f.get('vcodec') != 'none'` (an absent key gives Python `None`,
which also differs from the string `'none'`). -/
def vcodecPresent (f : RawFormat) : Bool := f.vcodec != some "none"

/-- Whether `f.get('acodec') != 'none'`. -/
def acodecPresent (f : RawFormat) : Bool := f.acodec != some "none"

/-- Categorisation and id tagging (downloader.py:66-92); `none` for the
`else: continue` branch (neither codec present). -/
def categorize (f : RawFormat) : Option FormatInfo :=
  let fid := f.format_id.getD ""
  let base : FormatInfo :=
    { format_id := fid
      ext := f.ext.getD "unknown"
      resolution := if vcodecPresent f then some (f.resolution.getD "unknown") else none
      filesize := f.filesize
      vcodec := f.vcodec.getD "none"
      acodec := f.acodec.getD "none"
      type := "" }
  if vcodecPresent f && acodecPresent f then
    some { base with type := "video+audio", format_id := "video_audio_" ++ fid }
  else if vcodecPresent f then
    some { base with type := "video", format_id := "video_" ++ fid }
  else if acodecPresent f then
    some { base with type := "audio", format_id := "audio_" ++ fid }
  else none

/-- The filter/categorise loop over `info['formats']` (downloader.py:61-94). -/
def buildFormats (fl : List RawFormat) : List FormatInfo :=
  fl.filterMap (fun f => if skipSmall f then none else categorize f)

/-- `type_priority` dict of `sort_key` (downloader.py:98-102), default 3. -/
def typePriority (t : String) : Nat :=
  if t = "video+audio" then 0
  else if t = "video" then 1
  else if t = "audio" then 2
  else 3

/-- `sort_key` (downloader.py:97-111).  `x.get('resolution', '0p')` finds the
key always present in `format_info`; for an audio-only entry its value is
Python `None`, and `filter(str.isdigit, None)` raises `TypeError`; a digit-free
resolution string other than `'unknown'` makes `int('')` raise `ValueError`. -/
def sortKey (x : FormatInfo) : Except String (Nat × Nat × Nat) :=
  match x.resolution with
  | none => .error "argument of type NoneType is not iterable"
  | some r =>
    if r = "unknown" then
      .ok (typePriority x.type, 0, x.filesize.getD 0)
    else
      let ds := r.toList.filter Char.isDigit
      if ds.isEmpty then .error "invalid literal for int() with base 10"
      else .ok (typePriority x.type, digitsVal ds, x.filesize.getD 0)

/-- Strict lexicographic order on sort-key triples. -/
def keyLt (a b : Nat × Nat × Nat) : Bool :=
  decide (a.1 < b.1 ∨ (a.1 = b.1 ∧ (a.2.1 < b.2.1 ∨ (a.2.1 = b.2.1 ∧ a.2.2 < b.2.2))))

/-- Stable descending insertion: a later element goes after earlier elements
of equal key (matching the stability of Python `list.sort(reverse=True)`). -/
def insertD (a : FormatInfo × (Nat × Nat × Nat)) :
    List (FormatInfo × (Nat × Nat × Nat)) → List (FormatInfo × (Nat × Nat × Nat))
  | [] => [a]
  | b :: bs => if keyLt b.2 a.2 then a :: b :: bs else b :: insertD a bs

/-- Stable descending sort of decorated entries. -/
def sortDesc (l : List (FormatInfo × (Nat × Nat × Nat))) :
    List (FormatInfo × (Nat × Nat × Nat)) :=
  l.foldl (fun acc a => insertD a acc) []

/-- Key decoration: Python's `list.sort(key=...)` first evaluates the key on
every element in list order, propagating the first exception. -/
def exceptMap (g : α → Except ε β) : List α → Except ε (List β)
  | [] => .ok []
  | a :: t =>
    match g a with
    | .error e => .error e
    | .ok b =>
      match exceptMap g t with
      | .error e => .error e
      | .ok bs => .ok (b :: bs)

/-- Build, sort (downloader.py:113), check emptiness (115-117) and truncate
(119) the catalog from the raw metadata entries. -/
def processFormats (fl : List RawFormat) : Except String (List FormatInfo) :=
  let formats := buildFormats fl
  match exceptMap (fun x => (sortKey x).map (fun k => (x, k))) formats with
  | .error e => .error e
  | .ok decorated =>
    let sorted := (sortDesc decorated).map (·.1)
    if sorted.isEmpty then
      .error "No downloadable formats found. The video may be private, deleted, or unavailable."
    else .ok (sorted.take 20)

/-! ### Cache records and the progress hook (downloader.py lines 125-147) -/

/-- The dict written to the Django cache under a job id.  Every write site in
the code populates `status` plus a subset of these optional keys; a field is
`none` exactly when the write site's dict lacks the key. -/
structure JobRecord where
  status : String
  percent : Option Int := none
  downloaded : Option Int := none
  total : Option Int := none
  speed : Option String := none
  eta : Option String := none
  filename : Option String := none
  size : Option Nat := none
  error : Option String := none
deriving DecidableEq, Repr

/-- A cache value: a job record, or the bare file-path string stored under
`"<progress_id>_file"` (views.py:35). -/
inductive CacheValue where
  | jobRec (r : JobRecord)
  | pathStr (s : String)
deriving DecidableEq, Repr

/-- One `cache.set(key, value, ttl)` call. -/
abbrev Write := String × CacheValue × Nat

/-- The argument dict of one engine progress callback.  The code reads the
keys `'status'`, `'_downloaded_bytes'`, `'_total_bytes'`, `'_speed_str'`,
`'_eta_str'` (downloader.py:127-137). -/
structure HookDict where
  status : String
  downloadedBytes : Option Int := none
  totalBytes : Option Int := none
  speedStr : Option String := none
  etaStr : Option String := none
deriving DecidableEq, Repr

/-- Round `N / D` to the nearest integer, ties to even (`D ≥ 1`). -/
def roundEvenDiv (N D : Nat) : Nat :=
  let q := N / D
  let r := N % D
  if 2 * r > D then q + 1
  else if 2 * r < D then q
  else if q % 2 = 0 then q else q + 1

/-- Structural-fuel worker for `natLog2`. -/
def log2Go : Nat → Nat → Nat
  | 0, _ => 0
  | fuel + 1, n => if 2 ≤ n then log2Go fuel (n / 2) + 1 else 0

/-- `⌊log2 n⌋` for `n ≥ 1` (0 at 0), by structural recursion. -/
def natLog2 (n : Nat) : Nat := log2Go n n

/-- `⌊log2 (A/B)⌋` for `A, B ≥ 1`. -/
def floorLog2Q (A B : Nat) : Int :=
  let la : Int := natLog2 A
  let lb : Int := natLog2 B
  if B * 2 ^ natLog2 A ≤ A * 2 ^ natLog2 B then la - lb else la - lb - 1

/-- The IEEE-754 binary64 rounding (to nearest, ties to even) of `A / B` for
`A, B ≥ 1`, as a pair `(n, e)` with value `n·2^e` and `2^52 ≤ n ≤ 2^53`
(exponent range unchecked: see `pyFloatPercent`). -/
def floatDivSig (A B : Nat) : Nat × Int :=
  let E := floorLog2Q A B
  let sh : Int := 52 - E
  let N := A * 2 ^ sh.toNat
  let D := B * 2 ^ (-sh).toNat
  (roundEvenDiv N D, E - 52)

/-- The binary64 rounding of `(n·2^e) * 100`: the exact product is the
integer `n·100` at exponent `e`, rounded back to 53 significant bits. -/
def floatMul100Sig (n : Nat) (e : Int) : Nat × Int :=
  let M := n * 100
  let lm := natLog2 M
  if lm ≤ 52 then (M, e)
  else (roundEvenDiv M (2 ^ (lm - 52)), e + (lm - 52))

/-- Truncation toward zero of `n·2^e` for `n ≥ 0`. -/
def truncSig (n : Nat) (e : Int) : Nat :=
  if 0 ≤ e then n * 2 ^ e.toNat else n / 2 ^ (-e).toNat

/-- `int(dl / t * 100)` exactly as CPython evaluates it for ints `dl` and
`t > 0`: `dl / t` is the correctly rounded binary64 quotient of the exact
rational (CPython's `int.__truediv__` rounds the rational directly, without
converting the operands), `* 100` is a correctly rounded binary64 product,
and `int(...)` truncates toward zero; signs factor out of round-to-nearest-
even.  Exact for every quotient in binary64's normal finite range (CPython
raises `OverflowError` only for `|dl/t| ≥ 2^1024`, and subnormal quotients
truncate to 0 either way — byte counters never approach either boundary). -/
def pyFloatPercent (dl t : Int) : Int :=
  if dl = 0 then 0
  else
    let p := floatDivSig dl.natAbs t.natAbs
    let p2 := floatMul100Sig p.1 p.2
    let mag : Int := truncSig p2.1 p2.2
    if dl < 0 then -mag else mag

/-- The percent stored by the hook: `(downloaded / total) * 100 if total > 0
else 0`, then `int(...)`; missing downloaded defaults to 0, missing total to
1 (downloader.py:128-130), the float arithmetic per `pyFloatPercent`. -/
def hookPercent (d : HookDict) : Int :=
  let dl := d.downloadedBytes.getD 0
  let t := d.totalBytes.getD 1
  if 0 < t then pyFloatPercent dl t else 0

/-- The closure returned by `_progress_hook(progress_id)` (downloader.py:125):
the cache writes performed for one callback dict. -/
def progress_hook (p : String) (d : HookDict) : List Write :=
  if d.status = "downloading" then
    [(p, .jobRec { status := "downloading",
                   percent := some (hookPercent d),
                   downloaded := some (d.downloadedBytes.getD 0),
                   total := some (d.totalBytes.getD 1),
                   speed := some (d.speedStr.getD "N/A"),
                   eta := some (d.etaStr.getD "N/A") }, 300)]
  else if d.status = "finished" then []
  else if d.status = "error" then
    [(p, .jobRec { status := "error", error := some "Download failed" }, 300)]
  else []

/-! ### `download_video` (downloader.py lines 149-286) -/

/-- The `ydl_opts` dict fields that vary (downloader.py:182-243); the
constant entries (`quiet`, `nocheckcertificate`, ...) are omitted.
`postprocessAudio` records the presence of the
`FFmpegExtractAudio/mp3/192` postprocessor. -/
structure YdlOpts where
  format : String
  outtmpl : String
  cookiefile : Option String := none
  postprocessAudio : Bool := false
deriving DecidableEq, Repr

/-- Filesystem side effects of one call.  `NamedTemporaryFile(mode='w',
suffix='.txt', delete=False)` is `createTempFile path content false`: the
`false` records that the file is not auto-deleted. -/
inductive FsEffect where
  | createTempFile (path content : String) (autoDelete : Bool)
  | removeFile (path : String)
deriving DecidableEq, Repr

/-- Lookup in the modelled filesystem (path ↦ byte size). -/
def fsGet : List (String × Nat) → String → Option Nat
  | [], _ => none
  | (p, n) :: t, k => if p = k then some n else fsGet t k

/-- Environment of one `download_video` call: the name the OS gives the
cookie temp file, `settings.MEDIA_ROOT`, the progress callbacks the engine
delivers during `extract_info`, the engine outcome (exception message, or the
`prepare_filename` result), and the files on disk after the engine call. -/
structure DVEnv where
  tmpName : String
  mediaRoot : String
  events : List HookDict
  engine : Except String String
  fs : List (String × Nat)

/-- Everything observable about one `download_video` call: the returned
filename or raised exception message, the cache writes and filesystem effects
in order, how many times the engine was invoked, and the constructed
`ydl_opts` (none when a precondition failed before building them). -/
structure DVOut where
  result : Except String String
  writes : List Write
  effects : List FsEffect
  engineCalls : Nat
  opts : Option YdlOpts

/-- The format query string per selector prefix (downloader.py:182-228);
note the code uses `str.replace`, which drops every occurrence. -/
def dvFormatString (fspec : String) : String :=
  if pyStartswith fspec "video_audio_" then pyReplace fspec "video_audio_" ""
  else if pyStartswith fspec "video_" then pyReplace fspec "video_" "" ++ "+bestaudio"
  else if pyStartswith fspec "audio_" then pyReplace fspec "audio_" ""
  else "bestvideo[height<=1080]+bestaudio/best[height<=1080]"

/-- Cookie materialisation (downloader.py:230-235): write the cookie string
to a `delete=False` temp file and point `ydl_opts['cookiefile']` at it. -/
def applyCookies (o : YdlOpts) (cookies : Option String) (tmp : String) :
    YdlOpts × List FsEffect :=
  match cookies with
  | some c => ({ o with cookiefile := some tmp }, [.createTempFile tmp c false])
  | none => (o, [])

/-- The writes a `some`-progress-id produces at one site. -/
def optW (pid : Option String) (f : String → Write) : List Write :=
  match pid with
  | some p => [f p]
  | none => []

/-- The error-record write of the `except` handler (downloader.py:284-285). -/
def errWrites (pid : Option String) (m : String) : List Write :=
  optW pid (fun p => (p, .jobRec { status := "error", error := some m }, 300))

/-- The audio-extension substitution (downloader.py:252-256). -/
def audioAdjust (fspec prepared : String) : String :=
  if pyStartswith fspec "audio_" then rsplitBase prepared ++ ".mp3" else prepared

/-- The alternate-extension probe (downloader.py:262-268): first existing
`base + ext` in order, with its size. -/
def probeAlts (fs : List (String × Nat)) (base : String) :
    List String → Option (String × Nat)
  | [] => none
  | e :: es =>
    match fsGet fs (base ++ e) with
    | some n => some (base ++ e, n)
    | none => probeAlts fs base es

/-- File resolution (downloader.py:260-272): the expected filename if it
exists, else the first alternate extension that does; paired with its
`os.path.getsize`. -/
def probeFile (fs : List (String × Nat)) (filename : String) : Option (String × Nat) :=
  match fsGet fs filename with
  | some n => some (filename, n)
  | none => probeAlts fs (rsplitBase filename) [".mp4", ".webm", ".m4a", ".mp3"]

/-- `download_video` (downloader.py:149).  The engine call, its progress
callbacks and the post-call filesystem come from `env`; all exceptions inside
the `try` are converted by the handler at lines 282-286 into an error cache
write plus a re-raised `"Failed to download: ..."` message. -/
def download_video (url fspec : String) (pid : Option String)
    (cookies : Option String) (env : DVEnv) : DVOut :=
  if is_valid_url url then
    if fspec = "" then ⟨.error "Format specification is required.", [], [], 0, none⟩
    else
      let startW := optW pid (fun p => (p, .jobRec { status := "starting" }, 300))
      let o0 : YdlOpts :=
        { format := dvFormatString fspec,
          outtmpl := env.mediaRoot ++ "/downloads/%(title)s.%(ext)s" }
      let oc := applyCookies o0 cookies env.tmpName
      let opts := if pyStartswith fspec "audio_" then
        { oc.1 with postprocessAudio := true } else oc.1
      let hw : List Write :=
        match pid with
        | some p => (env.events.map (progress_hook p)).flatten
        | none => []
      match env.engine with
      | .error e =>
        ⟨.error ("Failed to download: " ++ e), startW ++ hw ++ errWrites pid e,
          oc.2, 1, some opts⟩
      | .ok prepared =>
        let fn0 := audioAdjust fspec prepared
        match probeFile env.fs fn0 with
        | none =>
          let m := "Downloaded file not found. Expected: " ++ fn0
          ⟨.error ("Failed to download: " ++ m), startW ++ hw ++ errWrites pid m,
            oc.2, 1, some opts⟩
        | some (f, n) =>
          if n = 0 then
            let m := "Downloaded file is empty"
            ⟨.error ("Failed to download: " ++ m), startW ++ hw ++ errWrites pid m,
              oc.2 ++ [.removeFile f], 1, some opts⟩
          else
            ⟨.ok f,
              startW ++ hw ++ optW pid (fun p =>
                (p, .jobRec { status := "completed", filename := some f, size := some n }, 3600)),
              oc.2, 1, some opts⟩
  else ⟨.error "Invalid URL provided.", [], [], 0, none⟩

/-! ### `get_available_formats` (downloader.py lines 19-123) -/

/-- The `extract_info` metadata dict: only `info.get('formats')` is read.
The `isinstance(formats_list, list)` guard (line 55) cannot fire in this
typed embedding. -/
structure ExtractInfo where
  formats : Option (List RawFormat)
deriving DecidableEq, Repr

/-- Environment of one `get_available_formats` call: the cookie temp-file
name and the engine outcome (`extract_info` exception, or its returned value,
where `none` models Python `None`). -/
structure GafEnv where
  tmpName : String
  fetch : Except String (Option ExtractInfo)

/-- `get_available_formats` (downloader.py:19): the returned list or raised
message, plus the filesystem effects.  The invalid-URL `ValueError` is raised
before the `try`, so it is not wrapped; every failure inside the `try` is
re-raised as `"Failed to get video formats: ..."` (line 123). -/
def get_available_formats (url : String) (cookies : Option String)
    (env : GafEnv) : Except String (List FormatInfo) × List FsEffect :=
  if is_valid_url url then
    let eff : List FsEffect :=
      match cookies with
      | some c => [.createTempFile env.tmpName c false]
      | none => []
    let inner : Except String (List FormatInfo) :=
      match env.fetch with
      | .error e => .error e
      | .ok none =>
        .error "Failed to extract video information. Video may be unavailable or require authentication."
      | .ok (some i) =>
        match i.formats with
        | none => .error "No video formats available. Video may be private or unavailable."
        | some fl => processFormats fl
    (match inner with
     | .error e => .error ("Failed to get video formats: " ++ e)
     | .ok v => .ok v, eff)
  else (.error "Invalid URL provided.", [])

/-! ### The AJAX view (`views.py` lines 10-53) -/

/-- Python `str.strip()` on the URL (views.py:18), over ASCII whitespace
(the URLs of interest contain no exotic Unicode spacing). -/
def pyStrip (s : String) : String :=
  String.mk (((s.toList.dropWhile Char.isWhitespace).reverse.dropWhile
    Char.isWhitespace).reverse)

/-- The parsed body of a submission: `data.get('url', '')` and
`data.get('format', '')`. -/
structure SubmitRequest where
  url : String
  format : String
deriving DecidableEq, Repr

/-- Outcome of the synchronous part of `index`: the JSON response is either
`{'progress_id': ...}` or `{'error': ...}`. -/
inductive SubmitResult where
  | ok (jobId : String)
  | err (msg : String)
deriving DecidableEq, Repr

/-- The synchronous body of `index` for an AJAX POST (views.py:17-42), with
the fresh `uuid4` supplied as `jobId`.  Returns the response and the cache
writes performed before the response is sent (the background thread's writes
are in `download_task`). -/
def index_submit (jobId : String) (req : SubmitRequest) : SubmitResult × List Write :=
  let url := pyStrip req.url
  if url = "" then (.err "URL is required", [])
  else if ¬ is_valid_url url then (.err "Invalid URL", [])
  else if ¬ (req.format = "mp4" ∨ req.format = "mp3") then
    (.err "Invalid format selected", [])
  else (.ok jobId, [(jobId, .jobRec { status := "queued" }, 300)])

/-- The background `download_task` closure (views.py:32-37): run
`download_video`; on success store the file path under `"<id>_file"`, on any
exception store a terminal error record.  The function is total: every
failure is converted into the error write, none escapes the thread. -/
def download_task (url fmt pid : String) (env : DVEnv) : DVOut :=
  let o := download_video url fmt (some pid) none env
  match o.result with
  | .ok path => { o with writes := o.writes ++ [(pid ++ "_file", .pathStr path, 3600)] }
  | .error e =>
    { o with writes := o.writes ++ [(pid, .jobRec { status := "error", error := some e }, 300)] }

/-- All cache writes of one submission: the view's own writes, then (when the
submission was accepted) the background task's writes, which happen after. -/
def submitAndRun (jobId : String) (req : SubmitRequest) (env : DVEnv) : List Write :=
  match index_submit jobId req with
  | (.ok j, w) => w ++ (download_task (pyStrip req.url) req.format j env).writes
  | (.err _, w) => w

/-- `get_progress` (views.py:51-53): the last record stored under the key,
or `{'status': 'not_found'}` (TTL expiry is not modelled). -/
def get_progress (writes : List Write) (k : String) : JobRecord :=
  match (writes.filterMap (fun w =>
    if w.1 = k then
      match w.2.1 with
      | .jobRec r => some r
      | .pathStr _ => none
    else none)).getLast? with
  | some r => r
  | none => { status := "not_found" }

/-! ### Record well-formedness (claim C9) -/

/-- At most one of the progress payload, the result reference and the error
message is populated, and the populated one matches `status`. -/
def recordWF (r : JobRecord) : Bool :=
  let hp := r.percent.isSome || r.downloaded.isSome || r.total.isSome
    || r.speed.isSome || r.eta.isSome
  let hr := r.filename.isSome || r.size.isSome
  let he := r.error.isSome
  (!hp || r.status == "downloading") && (!hr || r.status == "completed")
    && (!he || r.status == "error")
    && !(hp && hr) && !(hp && he) && !(hr && he)

/-- Claim-side predicate, following the spec's words for claim C4: the raw
format spec "lexically contains an audio-indicating token (`audio`, or a
known audio container extension)". -/
def specAudioIndicating (s : String) : Bool :=
  hasSubstr s "audio" || hasSubstr s "mp3" || hasSubstr s "m4a"
    || hasSubstr s "aac" || hasSubstr s "wav" || hasSubstr s "ogg"
    || hasSubstr s "opus" || hasSubstr s "flac"

/-! ### Concrete fixtures for evaluation, witnesses and counterexamples -/

/-- A combined video+audio metadata entry (yt-dlp itag 18 style). -/
def rawVA : RawFormat :=
  ⟨some "18", some "mp4", some "360p", some 2048, some "avc1", some "mp4a.40.2"⟩

/-- A video-only metadata entry (yt-dlp itag 137 style). -/
def rawV : RawFormat :=
  ⟨some "137", some "mp4", some "1080p", some 4096, some "avc1", some "none"⟩

/-- An audio-only metadata entry (yt-dlp itag 140 style). -/
def rawA : RawFormat :=
  ⟨some "140", some "m4a", none, some 5000, some "none", some "mp4a.40.2"⟩

/-- A download environment where the engine succeeds and the predicted file
exists with 1000 bytes. -/
def envOK : DVEnv :=
  ⟨"/tmp/ck.txt", "media", [], .ok "media/downloads/title.mp4",
    [("media/downloads/title.mp4", 1000)]⟩

/-- A download environment where the engine raises `"boom"`. -/
def envFail : DVEnv :=
  ⟨"/tmp/ck.txt", "media", [], .error "boom", []⟩

/-- A download environment where the resolved file has size zero. -/
def envZero : DVEnv :=
  ⟨"/tmp/ck.txt", "media", [], .ok "media/downloads/title.mp4",
    [("media/downloads/title.mp4", 0)]⟩

/-- A progress callback claiming more bytes downloaded than the total. -/
def dOver : HookDict := ⟨"downloading", some 200, some 100, none, none⟩

/-- A progress callback at one quarter of the total. -/
def dQuarter : HookDict := ⟨"downloading", some 50, some 200, none, none⟩

/-- A catalog environment whose metadata holds a single audio-only entry. -/
def gafEnvA : GafEnv := ⟨"/tmp/c.txt", .ok (some ⟨some [rawA]⟩)⟩

/-! ### Shared lemmas -/

/-- A hit of the alternate-extension probe is a real filesystem entry. -/
theorem probeAlts_fsGet {fs : List (String × Nat)} {base f : String} {n : Nat} :
    ∀ {es : List String}, probeAlts fs base es = some (f, n) → fsGet fs f = some n := by
  intro es
  induction es with
  | nil => intro h; exact absurd h (by simp [probeAlts])
  | cons e es ih =>
    intro h
    unfold probeAlts at h
    cases hfs : fsGet fs (base ++ e) with
    | none => rw [hfs] at h; exact ih h
    | some m =>
      rw [hfs] at h
      simp only [Option.some.injEq, Prod.mk.injEq] at h
      rw [← h.1, hfs, h.2]

/-- A hit of `probeFile` is a real filesystem entry with the reported size. -/
theorem probeFile_fsGet {fs : List (String × Nat)} {fn f : String} {n : Nat}
    (h : probeFile fs fn = some (f, n)) : fsGet fs f = some n := by
  unfold probeFile at h
  cases hfs : fsGet fs fn with
  | none => rw [hfs] at h; exact probeAlts_fsGet h
  | some m =>
    rw [hfs] at h
    simp only [Option.some.injEq, Prod.mk.injEq] at h
    rw [← h.1, hfs, h.2]

/-- Every cache write of the progress hook uses the short 300s TTL. -/
theorem progress_hook_ttl {p : String} {d : HookDict} {w : Write}
    (hw : w ∈ progress_hook p d) : w.2.2 = 300 := by
  unfold progress_hook at hw
  split_ifs at hw <;> simp_all

/-- Every record the progress hook writes is well formed: the downloading
record carries only the progress payload, the error record only a message. -/
theorem progress_hook_wf {p : String} {d : HookDict} {k : String} {r : JobRecord}
    {ttl : Nat} (hw : (k, CacheValue.jobRec r, ttl) ∈ progress_hook p d) :
    recordWF r = true := by
  unfold progress_hook at hw
  split_ifs at hw <;> simp_all <;> rfl

/-- If some element's key computation fails, the whole decoration fails. -/
theorem exceptMap_error (g : α → Except ε β) {l : List α} {x : α} {e : ε}
    (hx : x ∈ l) (hg : g x = .error e) : ∃ e', exceptMap g l = .error e' := by
  induction l with
  | nil => exact absurd hx (by simp)
  | cons a t ih =>
    rcases List.mem_cons.mp hx with h | h
    · subst h
      exact ⟨e, by unfold exceptMap; rw [hg]⟩
    · cases hga : g a with
      | error e'' => exact ⟨e'', by unfold exceptMap; rw [hga]⟩
      | ok b =>
        obtain ⟨e', he'⟩ := ih h
        exact ⟨e', by unfold exceptMap; rw [hga, he']⟩

/-- A catalog entry categorised as audio-only carries a `None` resolution
(downloader.py:69: the resolution field is kept only when a video codec is
present). -/
theorem categorize_audio_resolution {f : RawFormat} {fi : FormatInfo}
    (h : categorize f = some fi) (ht : fi.type = "audio") : fi.resolution = none := by
  unfold categorize at h
  cases hv : vcodecPresent f
  · cases ha : acodecPresent f
    · simp [hv, ha] at h
    · simp [hv, ha] at h
      rw [← h]
  · cases ha : acodecPresent f
    · simp [hv, ha] at h
      rw [← h] at ht
      simp at ht
    · simp [hv, ha] at h
      rw [← h] at ht
      simp at ht

/-- Lifting of `categorize_audio_resolution` to the catalog list. -/
theorem audio_resolution_none {fi : FormatInfo} {fl : List RawFormat}
    (hmem : fi ∈ buildFormats fl) (ht : fi.type = "audio") : fi.resolution = none := by
  unfold buildFormats at hmem
  rw [List.mem_filterMap] at hmem
  obtain ⟨f, -, hf⟩ := hmem
  by_cases hs : skipSmall f
  · simp [hs] at hf
  · rw [if_neg (by simp [hs])] at hf
    exact categorize_audio_resolution hf ht

/-- The engine is invoked at most once per `download_video` call: jobs are
never retried. -/
theorem download_video_engineCalls (url fspec : String) (pid cookies : Option String)
    (env : DVEnv) : (download_video url fspec pid cookies env).engineCalls ≤ 1 := by
  unfold download_video
  split_ifs <;> try simp
  all_goals
    cases env.engine with
    | error e => simp
    | ok prepared =>
      cases hp : probeFile env.fs (audioAdjust fspec prepared) with
      | none => simp [hp]
      | some fn =>
        rcases fn with ⟨f, n⟩
        by_cases hn : n = 0 <;> simp [hp, hn]

/-- Inversion for the cache writes of `download_video`: every write happens
under a present progress id and is the starting record, a progress-hook
write, an error record, or the completed record of a successfully probed
nonempty file. -/
theorem dv_writes_shape {url fspec : String} {pid cookies : Option String} {env : DVEnv}
    {w : Write} (hw : w ∈ (download_video url fspec pid cookies env).writes) :
    ∃ p, pid = some p ∧
      (w = (p, CacheValue.jobRec { status := "starting" }, 300)
       ∨ (∃ d, d ∈ env.events ∧ w ∈ progress_hook p d)
       ∨ (∃ m, w = (p, CacheValue.jobRec { status := "error", error := some m }, 300))
       ∨ (∃ prepared f n, env.engine = .ok prepared
            ∧ probeFile env.fs (audioAdjust fspec prepared) = some (f, n) ∧ n ≠ 0
            ∧ w = (p, CacheValue.jobRec
                { status := "completed", filename := some f, size := some n }, 3600))) := by
  cases pid with
  | none =>
    exfalso
    unfold download_video at hw
    split_ifs at hw with hv hf hau
    · simp at hw
    all_goals
      cases henv : env.engine with
      | error e => simp [henv, optW, errWrites] at hw
      | ok prepared =>
        cases hp : probeFile env.fs (audioAdjust fspec prepared) with
        | none => simp [henv, hp, optW, errWrites] at hw
        | some fn =>
          rcases fn with ⟨f, n⟩
          by_cases hn : n = 0 <;> simp [henv, hp, hn, optW, errWrites] at hw
  | some p =>
    refine ⟨p, rfl, ?_⟩
    unfold download_video at hw
    split_ifs at hw with hv hf hau
    · simp at hw
    rotate_right
    · simp at hw
    all_goals
      cases henv : env.engine with
      | error e =>
        simp [henv, optW, errWrites] at hw
        rcases hw with h | h | h
        · exact Or.inl h
        · exact Or.inr (Or.inl h)
        · exact Or.inr (Or.inr (Or.inl ⟨e, h⟩))
      | ok prepared =>
        cases hp : probeFile env.fs (audioAdjust fspec prepared) with
        | none =>
          simp [henv, hp, optW, errWrites] at hw
          rcases hw with h | h | h
          · exact Or.inl h
          · exact Or.inr (Or.inl h)
          · exact Or.inr (Or.inr (Or.inl ⟨_, h⟩))
        | some fn =>
          rcases fn with ⟨f, n⟩
          by_cases hn : n = 0
          · simp [henv, hp, hn, optW, errWrites] at hw
            rcases hw with h | h | h
            · exact Or.inl h
            · exact Or.inr (Or.inl h)
            · exact Or.inr (Or.inr (Or.inl ⟨_, h⟩))
          · simp [henv, hp, hn, optW, errWrites] at hw
            rcases hw with h | h | h
            · exact Or.inl h
            · exact Or.inr (Or.inl h)
            · exact Or.inr (Or.inr (Or.inr ⟨prepared, f, n, rfl, hp, hn, h⟩))
/-! ### Claims -/

/-- Claim C1 (code bug evaluation).  The claim — and the comment at
downloader.py:96 — say the catalog is sorted with combined video+audio
entries first.  The code sorts the key `(type_priority, height, size)` with
`reverse=True` while giving `video+audio` priority 0 and `video` priority 1,
so the descending sort puts the video-only entry first: on a metadata list
holding a 360p video+audio entry and a 1080p video-only entry, the returned
order is `video_137` before `video_audio_18`, while the claimed ordering
(category priority first, `video_and_audio > video_only`) demands
`video_audio_18` first. -/
theorem claimC1_priority_inverted_eval :
    (processFormats [rawVA, rawV]).map (List.map FormatInfo.format_id)
      = Except.ok ["video_137", "video_audio_18"] := by rfl

/-- Claim C2 counterexample: submitting the spec's own scenario
`{url: "https://example.com/watch?v=abc", format: "video_audio_18"}` is
rejected synchronously by the view's `format_type not in ['mp4','mp3']`
whitelist (views.py:25) — no job id, no `queued` record, refuting the claim
that such a submission succeeds. -/
theorem claimC2_counterexample :
    index_submit "job-1" ⟨"https://example.com/watch?v=abc", "video_audio_18"⟩
      = (.err "Invalid format selected", []) := by decide

/-- Claim C2 (amended): a submission with a valid HTTP/HTTPS URL succeeds
exactly for the legacy selectors `mp4`/`mp3`: a fresh job id is returned,
the only synchronous store write is the `queued` record, and an immediate
`get_status` poll returns `queued`.  Catalog-tagged selectors such as
`video_audio_18` are rejected as an invalid format. -/
theorem claimC2_amended (jobId url fmt : String)
    (hu : is_valid_url (pyStrip url) = true) (hf : fmt = "mp4" ∨ fmt = "mp3") :
    index_submit jobId ⟨url, fmt⟩
      = (.ok jobId, [(jobId, .jobRec { status := "queued" }, 300)])
    ∧ (get_progress (index_submit jobId ⟨url, fmt⟩).2 jobId).status = "queued" := by
  have hne : pyStrip url ≠ "" := by
    intro h0
    rw [h0] at hu
    exact absurd hu (by decide)
  have h1 : index_submit jobId ⟨url, fmt⟩
      = (.ok jobId, [(jobId, .jobRec { status := "queued" }, 300)]) := by
    unfold index_submit
    rw [if_neg hne, if_neg (not_not_intro hu), if_neg (not_not_intro hf)]
  refine ⟨h1, ?_⟩
  rw [h1]
  simp [get_progress]

/-- Witness for `claimC2_amended` at the spec's URL with the accepted `mp4`
selector. -/
theorem claimC2_amended_witness :
    index_submit "j" ⟨"https://example.com/watch?v=abc", "mp4"⟩
      = (.ok "j", [("j", .jobRec { status := "queued" }, 300)])
    ∧ (get_progress (index_submit "j" ⟨"https://example.com/watch?v=abc", "mp4"⟩).2 "j").status
        = "queued" :=
  claimC2_amended "j" "https://example.com/watch?v=abc" "mp4" (by decide) (Or.inl rfl)

/-- Claim C3 counterexample: a downloading callback with 200 bytes reported
downloaded out of a total of 100 stores percent = 200, outside [0,100] — the
hook truncates but never clamps, refuting the claim. -/
theorem claimC3_counterexample :
    progress_hook "p" dOver
      = [("p", .jobRec { status := "downloading", percent := some 200,
                         downloaded := some 200, total := some 100,
                         speed := some "N/A", eta := some "N/A" }, 300)]
    ∧ ¬ ((200 : Int) ≤ 100) := by
  refine ⟨by decide, by decide⟩

/-- Claim C3 (amended): for every downloading callback the hook stores
exactly one record; its percent is `int(downloaded/total*100)` evaluated in
binary64 float arithmetic with a missing downloaded counting as 0 and a
missing total as 1; the only divide-by-zero guard is a known non-positive
total, which yields percent 0 without dividing — an unknown total defaults
to 1, so the division still happens and percent becomes the float value of
100·downloaded; the stored value is never clamped (values above 100, such
as 200 for downloaded=200 of total=100, are stored as computed) and it is
never negative when the reported downloaded count is nonnegative. -/
theorem claimC3_amended (p : String) (d : HookDict) (h : d.status = "downloading") :
    progress_hook p d
      = [(p, .jobRec { status := "downloading", percent := some (hookPercent d),
                       downloaded := some (d.downloadedBytes.getD 0),
                       total := some (d.totalBytes.getD 1),
                       speed := some (d.speedStr.getD "N/A"),
                       eta := some (d.etaStr.getD "N/A") }, 300)]
    ∧ (d.totalBytes.getD 1 ≤ 0 → hookPercent d = 0)
    ∧ (0 ≤ d.downloadedBytes.getD 0 → 0 ≤ hookPercent d) := by
  refine ⟨by rw [progress_hook, if_pos h], ?_, ?_⟩
  · intro ht
    unfold hookPercent
    rw [if_neg (by omega)]
  · intro hd
    unfold hookPercent
    by_cases ht : 0 < d.totalBytes.getD 1
    · rw [if_pos ht]
      unfold pyFloatPercent
      by_cases h0 : d.downloadedBytes.getD 0 = 0
      · rw [if_pos h0]
      · rw [if_neg h0]
        simp only []
        rw [if_neg (not_lt.mpr hd)]
        exact Int.natCast_nonneg _
    · rw [if_neg ht]

/-- Witness for `claimC3_amended` at a callback reporting 50 of 200 bytes. -/
theorem claimC3_amended_witness :
    progress_hook "p" dQuarter
      = [("p", .jobRec { status := "downloading", percent := some (hookPercent dQuarter),
                         downloaded := some (dQuarter.downloadedBytes.getD 0),
                         total := some (dQuarter.totalBytes.getD 1),
                         speed := some (dQuarter.speedStr.getD "N/A"),
                         eta := some (dQuarter.etaStr.getD "N/A") }, 300)]
    ∧ (dQuarter.totalBytes.getD 1 ≤ 0 → hookPercent dQuarter = 0)
    ∧ (0 ≤ dQuarter.downloadedBytes.getD 0 → 0 ≤ hookPercent dQuarter) :=
  claimC3_amended "p" dQuarter rfl

/-- Claim C6: a submission whose (stripped) URL fails `is_valid_url` — no
scheme splits off, the scheme is not http/https, or the host is empty — is
rejected synchronously with an invalid-input error, performs no store write,
and issues no job id (the response is an error, never `ok`). -/
theorem claimC6_reject_malformed (jobId : String) (req : SubmitRequest)
    (h : is_valid_url (pyStrip req.url) = false) :
    (index_submit jobId req).2 = []
    ∧ ((index_submit jobId req).1 = SubmitResult.err "URL is required"
       ∨ (index_submit jobId req).1 = SubmitResult.err "Invalid URL") := by
  unfold index_submit
  by_cases h0 : pyStrip req.url = ""
  · rw [if_pos h0]
    exact ⟨rfl, Or.inl rfl⟩
  · rw [if_neg h0, if_pos (by simp [h])]
    exact ⟨rfl, Or.inr rfl⟩

/-- Witness for `claimC6_reject_malformed` at the spec's scenario
`{url: "not-a-url", format: "audio_140"}`. -/
theorem claimC6_reject_malformed_witness :
    (index_submit "j1" ⟨"not-a-url", "audio_140"⟩).2 = []
    ∧ ((index_submit "j1" ⟨"not-a-url", "audio_140"⟩).1 = SubmitResult.err "URL is required"
       ∨ (index_submit "j1" ⟨"not-a-url", "audio_140"⟩).1 = SubmitResult.err "Invalid URL") :=
  claimC6_reject_malformed "j1" ⟨"not-a-url", "audio_140"⟩ (by decide)

/-- Materialising cookies never touches the postprocessor field of the
engine options. -/
theorem applyCookies_postprocess (o : YdlOpts) (c : Option String) (t : String) :
    (applyCookies o c t).1.postprocessAudio = o.postprocessAudio := by
  unfold applyCookies
  cases c <;> rfl

/-- Claim C4 counterexample: the legacy bare `mp3` selector — which the
claim says triggers audio postprocessing because `mp3` is an
audio-indicating token — takes the fallback branch of `download_video` and
gets no `FFmpegExtractAudio` postprocessor at all (the code's only trigger
is the `audio_` prefix, downloader.py:238). -/
theorem claimC4_counterexample :
    specAudioIndicating "mp3" = true
    ∧ ((download_video "https://example.com/watch?v=abc" "mp3" none none envOK).opts.map
        YdlOpts.postprocessAudio) = some false := by
  refine ⟨by decide, by decide⟩

/-- Claim C4 (amended): whenever `download_video` builds its engine options,
the mp3/192kbps re-encoding postprocessor is requested exactly when the
format selector starts with the `audio_` category prefix — lexical content
of the spec string (such as a bare `mp3`) plays no role. -/
theorem claimC4_amended (url fspec : String) (pid cookies : Option String)
    (env : DVEnv) (o : YdlOpts)
    (h : (download_video url fspec pid cookies env).opts = some o) :
    (o.postprocessAudio = true ↔ pyStartswith fspec "audio_" = true) := by
  unfold download_video at h
  simp only [] at h
  split_ifs at h with hv hf hau
  all_goals
    first
    | (simp at h; done)
    | (cases henv : env.engine with
       | error e =>
         simp only [henv] at h
         simp at h
         subst h
         simp [applyCookies_postprocess, hau]
       | ok prepared =>
         cases hp : probeFile env.fs (audioAdjust fspec prepared) with
         | none =>
           simp only [henv, hp] at h
           simp at h
           subst h
           simp [applyCookies_postprocess, hau]
         | some fn =>
           rcases fn with ⟨f, n⟩
           simp only [henv, hp] at h
           split_ifs at h with hn
           all_goals
             simp at h
             subst h
             simp [applyCookies_postprocess, hau])
/-- Witness for `claimC4_amended` at the catalog selector `audio_140`. -/
theorem claimC4_amended_witness :
    (({ format := "140", outtmpl := "media/downloads/%(title)s.%(ext)s",
        cookiefile := none, postprocessAudio := true } : YdlOpts).postprocessAudio = true
      ↔ pyStartswith "audio_140" "audio_" = true) :=
  claimC4_amended "https://example.com/watch?v=abc" "audio_140" none none envOK
    { format := "140", outtmpl := "media/downloads/%(title)s.%(ext)s",
      cookiefile := none, postprocessAudio := true } (by decide)

/-- Claim C5 counterexample: a `download_video` call given cookie material
writes it to a `delete=False` temp file and never removes it — the cookie
data remains on disk after the call returns, refuting the claim that nothing
persists beyond the call's lifetime. -/
theorem claimC5_counterexample :
    FsEffect.createTempFile "/tmp/ck.txt" "SESSION=abc; token=xyz" false
        ∈ (download_video "https://example.com/watch?v=abc" "mp4" none
            (some "SESSION=abc; token=xyz") envOK).effects
    ∧ FsEffect.removeFile "/tmp/ck.txt"
        ∉ (download_video "https://example.com/watch?v=abc" "mp4" none
            (some "SESSION=abc; token=xyz") envOK).effects := by
  refine ⟨by decide, by decide⟩

/-- Claim C5 (amended): both `download_video` and `get_available_formats`
materialise given cookie material into a temp credentials file consumed by
that single call (it becomes the call's `cookiefile` option), but the file is
created with `delete=False` and never deleted — the cookie data persists on
disk after the call returns.  (The download call's only `os.remove` targets a
zero-size downloaded artifact, which is a real filesystem entry, never the
cookie file.) -/
theorem claimC5_amended :
    (∀ url fspec c : String, ∀ pid : Option String, ∀ env : DVEnv,
      is_valid_url url = true → fspec ≠ "" → fsGet env.fs env.tmpName = none →
      FsEffect.createTempFile env.tmpName c false
          ∈ (download_video url fspec pid (some c) env).effects
      ∧ ((download_video url fspec pid (some c) env).opts.map YdlOpts.cookiefile)
          = some (some env.tmpName)
      ∧ FsEffect.removeFile env.tmpName
          ∉ (download_video url fspec pid (some c) env).effects)
    ∧ (∀ url c : String, ∀ env : GafEnv, is_valid_url url = true →
      (get_available_formats url (some c) env).2
        = [FsEffect.createTempFile env.tmpName c false]) := by
  constructor
  · intro url fspec c pid env hv hf htmp
    unfold download_video
    rw [if_pos hv, if_neg hf]
    by_cases hau : pyStartswith fspec "audio_" = true
    all_goals
      cases henv : env.engine with
      | error e => simp [henv, hau, applyCookies]
      | ok prepared =>
        cases hp : probeFile env.fs (audioAdjust fspec prepared) with
        | none => simp [henv, hp, hau, applyCookies]
        | some fn =>
          rcases fn with ⟨f, n⟩
          by_cases hn : n = 0
          · have hfne : f ≠ env.tmpName := by
              intro he
              have hg := probeFile_fsGet hp
              rw [he, htmp] at hg
              exact absurd hg (by simp)
            simp [henv, hp, hn, hau, applyCookies, hfne, Ne.symm hfne]
          · simp [henv, hp, hn, hau, applyCookies]
  · intro url c env hv
    unfold get_available_formats
    rw [if_pos hv]

/-- Witness for `claimC5_amended`: a download call and a catalog call, each
with concrete cookie material. -/
theorem claimC5_amended_witness :
    (FsEffect.createTempFile "/tmp/ck.txt" "CK" false
        ∈ (download_video "https://example.com/watch?v=abc" "mp4" none (some "CK") envOK).effects
     ∧ ((download_video "https://example.com/watch?v=abc" "mp4" none (some "CK") envOK).opts.map
          YdlOpts.cookiefile) = some (some "/tmp/ck.txt")
     ∧ FsEffect.removeFile "/tmp/ck.txt"
        ∉ (download_video "https://example.com/watch?v=abc" "mp4" none (some "CK") envOK).effects)
    ∧ (get_available_formats "https://example.com/v" (some "CK") gafEnvA).2
        = [FsEffect.createTempFile "/tmp/c.txt" "CK" false] :=
  ⟨claimC5_amended.1 "https://example.com/watch?v=abc" "mp4" "CK" none envOK
      (by decide) (by decide) (by decide),
   claimC5_amended.2 "https://example.com/v" "CK" gafEnvA (by decide)⟩

/-- The synchronous view body either rejects with no writes or accepts with
exactly the `queued` write. -/
theorem index_submit_cases (jobId : String) (req : SubmitRequest) :
    index_submit jobId req = (.err "URL is required", [])
    ∨ index_submit jobId req = (.err "Invalid URL", [])
    ∨ index_submit jobId req = (.err "Invalid format selected", [])
    ∨ index_submit jobId req
        = (.ok jobId, [(jobId, CacheValue.jobRec { status := "queued" }, 300)]) := by
  unfold index_submit
  simp only []
  by_cases h0 : pyStrip req.url = ""
  · rw [if_pos h0]
    exact Or.inl rfl
  · rw [if_neg h0]
    by_cases h1 : is_valid_url (pyStrip req.url) = true
    · rw [if_neg (not_not_intro h1)]
      by_cases h2 : req.format = "mp4" ∨ req.format = "mp3"
      · rw [if_neg (not_not_intro h2)]
        exact Or.inr (Or.inr (Or.inr rfl))
      · rw [if_pos h2]
        exact Or.inr (Or.inr (Or.inl rfl))
    · rw [if_pos h1]
      exact Or.inr (Or.inl rfl)

/-- Every job record `download_video` writes is well formed (uses the write
inversion and the hook lemma). -/
theorem dv_record_wf {url fspec : String} {pid cookies : Option String} {env : DVEnv}
    {k : String} {r : JobRecord} {ttl : Nat}
    (h : (k, CacheValue.jobRec r, ttl) ∈ (download_video url fspec pid cookies env).writes) :
    recordWF r = true := by
  obtain ⟨p, -, hc⟩ := dv_writes_shape h
  rcases hc with h | ⟨d, -, hw⟩ | ⟨m, h⟩ | ⟨prep, f, n, -, -, -, h⟩
  · simp at h
    rw [h.2.1]
    rfl
  · exact progress_hook_wf hw
  · simp at h
    rw [h.2.1]
    rfl
  · simp at h
    rw [h.2.1]
    rfl

/-- Claim C7: (a) whenever a completed record for file `f` with size `n` is
written, `n` is exactly the file's size on disk at that moment and is
strictly positive; (b) when the resolved file has size zero, the call fails
with "Downloaded file is empty", deletes the file, and writes an error
record instead of a completed one. -/
theorem claimC7_completed_size :
    (∀ url fspec : String, ∀ pid cookies : Option String, ∀ env : DVEnv,
      ∀ p f : String, ∀ n ttl : Nat,
      (p, CacheValue.jobRec { status := "completed", filename := some f, size := some n }, ttl)
          ∈ (download_video url fspec pid cookies env).writes →
      fsGet env.fs f = some n ∧ 0 < n)
    ∧ (∀ url fspec p prepared f : String, ∀ cookies : Option String, ∀ env : DVEnv,
      is_valid_url url = true → fspec ≠ "" → env.engine = .ok prepared →
      probeFile env.fs (audioAdjust fspec prepared) = some (f, 0) →
      (download_video url fspec (some p) cookies env).result
          = .error ("Failed to download: " ++ "Downloaded file is empty")
      ∧ FsEffect.removeFile f ∈ (download_video url fspec (some p) cookies env).effects
      ∧ (p, CacheValue.jobRec { status := "error", error := some "Downloaded file is empty" }, 300)
          ∈ (download_video url fspec (some p) cookies env).writes) := by
  constructor
  · intro url fspec pid cookies env p f n ttl hmem
    obtain ⟨p', -, hc⟩ := dv_writes_shape hmem
    rcases hc with h | ⟨d, -, hw⟩ | ⟨m, h⟩ | ⟨prep, f', n', -, hp, hn, h⟩
    · simp at h
    · unfold progress_hook at hw
      split_ifs at hw <;> simp_all
    · simp at h
    · simp only [Prod.mk.injEq, CacheValue.jobRec.injEq, JobRecord.mk.injEq,
        Option.some.injEq] at h
      obtain ⟨-, ⟨-, -, -, -, -, -, hf, hn', -⟩, -⟩ := h
      subst hf
      subst hn'
      exact ⟨probeFile_fsGet hp, Nat.pos_of_ne_zero hn⟩
  · intro url fspec p prepared f cookies env hv hf henv hp
    unfold download_video
    rw [if_pos hv, if_neg hf]
    simp [henv, hp, optW, errWrites]

/-- Witness for `claimC7_completed_size`: a successful 1000-byte download
and a zero-byte download. -/
theorem claimC7_completed_size_witness :
    (fsGet envOK.fs "media/downloads/title.mp4" = some 1000 ∧ 0 < 1000)
    ∧ ((download_video "https://example.com/watch?v=abc" "mp4" (some "p1") none envZero).result
          = .error ("Failed to download: " ++ "Downloaded file is empty")
      ∧ FsEffect.removeFile "media/downloads/title.mp4"
          ∈ (download_video "https://example.com/watch?v=abc" "mp4" (some "p1") none envZero).effects
      ∧ ("p1", CacheValue.jobRec { status := "error", error := some "Downloaded file is empty" }, 300)
          ∈ (download_video "https://example.com/watch?v=abc" "mp4" (some "p1") none envZero).writes) :=
  ⟨claimC7_completed_size.1 "https://example.com/watch?v=abc" "mp4" (some "p1") none envOK
      "p1" "media/downloads/title.mp4" 1000 3600 (by decide),
   claimC7_completed_size.2 "https://example.com/watch?v=abc" "mp4" "p1"
      "media/downloads/title.mp4" "media/downloads/title.mp4" none envZero
      (by decide) (by decide) rfl (by decide)⟩

/-- Claim C8: whenever the `download_video` call inside the background task
fails, `download_task` converts the failure into a final terminal store
write `state=error` with the failure message and the short 300s TTL (the
function is total, so no fault escapes the thread), and the engine is
invoked at most once — the job is never retried. -/
theorem claimC8_failure_terminal (url fmt pid : String) (env : DVEnv) (e : String)
    (h : (download_video url fmt (some pid) none env).result = .error e) :
    (download_task url fmt pid env).writes.getLast?
        = some (pid, CacheValue.jobRec { status := "error", error := some e }, 300)
    ∧ (download_task url fmt pid env).engineCalls ≤ 1 := by
  have hcalls := download_video_engineCalls url fmt (some pid) none env
  unfold download_task
  simp only [h]
  exact ⟨List.getLast?_concat _, hcalls⟩

/-- Witness for `claimC8_failure_terminal` at an engine that raises
`"boom"`. -/
theorem claimC8_failure_terminal_witness :
    (download_task "https://example.com/watch?v=abc" "mp4" "p1" envFail).writes.getLast?
        = some ("p1", CacheValue.jobRec
            { status := "error", error := some "Failed to download: boom" }, 300)
    ∧ (download_task "https://example.com/watch?v=abc" "mp4" "p1" envFail).engineCalls ≤ 1 :=
  claimC8_failure_terminal "https://example.com/watch?v=abc" "mp4" "p1" envFail
    "Failed to download: boom" (by rfl)

/-- Claim C9: every job record written to the store across a full
submission — the view's `queued` write, the background task's `starting`,
progress, completed and error writes — is well formed: at most one of the
progress payload, the result reference and the error message is populated,
and the populated one matches the record's state. -/
theorem claimC9_record_invariant (jobId : String) (req : SubmitRequest) (env : DVEnv)
    (k : String) (r : JobRecord) (ttl : Nat)
    (h : (k, CacheValue.jobRec r, ttl) ∈ submitAndRun jobId req env) :
    recordWF r = true := by
  unfold submitAndRun at h
  rcases index_submit_cases jobId req with hidx | hidx | hidx | hidx <;> rw [hidx] at h
  · simp at h
  · simp at h
  · simp at h
  · simp only [List.mem_append, List.mem_cons, List.not_mem_nil, or_false] at h
    rcases h with h | h
    · simp only [Prod.mk.injEq, CacheValue.jobRec.injEq] at h
      rw [h.2.1]
      rfl
    · unfold download_task at h
      cases hres : (download_video (pyStrip req.url) req.format (some jobId) none env).result with
      | ok path =>
        simp only [hres, List.mem_append] at h
        rcases h with h | h
        · exact dv_record_wf h
        · simp at h
      | error e =>
        simp only [hres, List.mem_append] at h
        rcases h with h | h
        · exact dv_record_wf h
        · simp only [List.mem_singleton, Prod.mk.injEq, CacheValue.jobRec.injEq] at h
          rw [h.2.1]
          rfl

/-- Witness for `claimC9_record_invariant` at the `queued` record of a
concrete successful submission. -/
theorem claimC9_record_invariant_witness :
    recordWF { status := "queued" } = true :=
  claimC9_record_invariant "j" ⟨"https://example.com/watch?v=abc", "mp4"⟩ envOK "j"
    { status := "queued" } 300 (by decide)

/-- Claim C10: whenever the filtered catalog contains an audio-only entry
(its resolution field is `None`), the sort-key computation raises and
`get_available_formats` returns an error rather than a format list. -/
theorem claimC10_audio_entry_raises (url : String) (cookies : Option String)
    (env : GafEnv) (i : ExtractInfo) (fl : List RawFormat)
    (hu : is_valid_url url = true) (hi : env.fetch = .ok (some i))
    (hfl : i.formats = some fl)
    (ha : ∃ fi ∈ buildFormats fl, fi.type = "audio") :
    ((get_available_formats url cookies env).1).isOk = false := by
  obtain ⟨fi, hmem, htype⟩ := ha
  have hres : fi.resolution = none := audio_resolution_none hmem htype
  have hg : (fun x => (sortKey x).map (fun kk => (x, kk))) fi
      = .error "argument of type NoneType is not iterable" := by
    simp only [sortKey, hres]
    rfl
  obtain ⟨e', he'⟩ :=
    exceptMap_error (fun x => (sortKey x).map (fun kk => (x, kk))) hmem hg
  have hpf : processFormats fl = .error e' := by
    unfold processFormats
    simp only []
    rw [he']
  unfold get_available_formats
  rw [if_pos hu]
  simp only [hi, hfl, hpf]
  rfl

/-- Witness for `claimC10_audio_entry_raises` at a metadata list holding a
single audio-only entry. -/
theorem claimC10_audio_entry_raises_witness :
    ((get_available_formats "https://example.com/v" none gafEnvA).1).isOk = false :=
  claimC10_audio_entry_raises "https://example.com/v" none gafEnvA ⟨some [rawA]⟩ [rawA]
    (by decide) rfl rfl (by decide)

end VideoDL
